import Mathlib

/-!
Shallow embedding of `hypnothera_community_manager.py` (the Hypnothera
subreddit community manager).

The script is a single class `HypnotheraCommunityManager` with static
content catalogs (`WEEKLY_THREADS`, `DAILY_CONTENT_TEMPLATES`, `TIPS`), a
JSON run-state file, a templated post generator (`generate_daily_post`), a
bounded comment-reply pass (`reply_to_comments`) and the orchestrating
`run_daily_routine`.  The browser driver is external: the embedding keeps
only the decisions the Python code itself makes (which posts are built and
submitted, which comments are replied to, what is written to the state
file), parametrised by the externally determined outcomes (login success,
per-submission success, the comment listing, the random choices).
-/

/-- A post to make in the community (Python dataclass `CommunityPost`). -/
structure CommunityPost where
  title : String
  content : String
  post_type : String
  flair : String
  pin : Bool
deriving DecidableEq

/-- One entry of the `WEEKLY_THREADS` catalog (a dict with keys
`day`, `title`, `content`, `flair`, `pin`). -/
structure WeeklyThreadSpec where
  day : String
  title : String
  content : String
  flair : String
  pin : Bool
deriving DecidableEq

/-- One entry of the `DAILY_CONTENT_TEMPLATES` catalog (a dict with keys
`type`, `title`, `content`, `flair`). -/
structure DailyTemplateSpec where
  type : String
  title : String
  content : String
  flair : String
deriving DecidableEq

/-- One entry of the `TIPS` catalog (a dict with keys `title`, `content`). -/
structure TipSpec where
  title : String
  content : String
deriving DecidableEq

/-- The `WEEKLY_THREADS` class attribute: monday, wednesday and friday
recurring threads, in source order. -/
def WEEKLY_THREADS : List WeeklyThreadSpec :=
  [ { day := "monday"
    , title := "Weekly Manifestation Thread - What are you working on?"
    , content := "Welcome to the weekly manifestation thread!\n\nThis is a space to share:\n- What you\x27re working on manifesting\n- Success stories from the past week\n- Challenges you\x27re facing\n- Tips that have worked for you\n\nLet\x27s support each other in achieving our goals. 🎯"
    , flair := "Discussion"
    , pin := true }
  , { day := "wednesday"
    , title := "Sleep Support Wednesday - Share your sleep wins"
    , content := "Mid-week check in! How\x27s your sleep been?\n\nShare:\n- Sleep wins from this week\n- Sessions that helped you\n- Questions about sleep hypnosis\n- Tips for better rest\n\nSleep is the foundation of everything. Let\x27s talk about it. 💤"
    , flair := "Discussion"
    , pin := false }
  , { day := "friday"
    , title := "Free Session Friday - Featured hypnosis of the week"
    , content := "Happy Friday! Here\x27s this week\x27s featured free session:\n\n🎙 **Session Title**\n*Category: [Category]*\n*Duration: [X] minutes*\n\nThis session focuses on [description].\n\nTry it this weekend and let us know how it goes!\n\n[Link to session]\n\n---\n\nWant more? Check out our full library at hypnothera.ai"
    , flair := "Featured"
    , pin := true } ]

/-- The `DAILY_CONTENT_TEMPLATES` class attribute, in source order. -/
def DAILY_CONTENT_TEMPLATES : List DailyTemplateSpec :=
  [ { type := "tip"
    , title := "Quick Hypnosis Tip: {tip_title}"
    , content := "{tip_content}\n\nWhat\x27s your favorite hypnosis tip? Share in the comments!\n\n---\n\nNew to hypnosis? Try Hypnothera free at hypnothera.ai"
    , flair := "Tips & Tricks" }
  , { type := "success_story"
    , title := "Success Story: {story_title}"
    , content := "{story_content}\n\nHave you had success with hypnosis? We\x27d love to hear your story!\n\n---\n\nStart your own success story at hypnothera.ai"
    , flair := "Success Story" }
  , { type := "question"
    , title := "Question of the Day: {question}"
    , content := "{context}\n\nDrop your answers in the comments!\n\n---\n\nWant personalized hypnosis? Check out hypnothera.ai"
    , flair := "Discussion" }
  , { type := "feature_highlight"
    , title := "Feature Spotlight: {feature_name}"
    , content := "Did you know Hypnothera has {feature_name}?\n\n{feature_description}\n\nTry it out: hypnothera.ai\n\n---\n\nWhat feature would you like to see next? Let us know!"
    , flair := "Announcement" } ]

/-- The `TIPS` class attribute, in source order. -/
def TIPS : List TipSpec :=
  [ { title := "Start with 60 seconds"
    , content := "Don\x27t try to jump into 20-minute sessions. Start with 60 seconds. Make it so easy you can\x27t say no. Once that sticks, scale up." }
  , { title := "Same time, same place"
    , content := "Your brain loves patterns. Do your hypnosis at the same time and place every day. It becomes a trigger for relaxation." }
  , { title := "Stack your habits"
    , content := "Attach hypnosis to an existing habit. \"After I brush my teeth, I\x27ll do 5 minutes of hypnosis.\" This is habit stacking." }
  , { title := "Track it visibly"
    , content := "Use a calendar. Put an X on every day you do hypnosis. Don\x27t break the chain. Visual feedback is powerful." }
  , { title := "Headphones matter"
    , content := "Good headphones make a huge difference. Noise-canceling is ideal, but even basic earbuds work better than phone speakers." } ]

/-- The local `questions` list of `(question, context)` pairs inside the
`question` branch of `generate_daily_post`, in source order. -/
def questions : List (String × String) :=
  [ ("What\x27s your biggest challenge with hypnosis?", "We all hit roadblocks. What\x27s been your biggest challenge with hypnosis or manifestation?")
  , ("How did you discover hypnosis?", "Everyone has an origin story. How did you first get into hypnosis?")
  , ("What\x27s your favorite hypnosis category?", "Sleep? Confidence? Manifestation? What\x27s your go-to?")
  , ("What time of day do you prefer hypnosis?", "Morning routine or evening wind-down? When do you find hypnosis most effective?")
  , ("Share your \x27aha\x27 moment", "When did hypnosis finally click for you? What made it all make sense?")
  , ("What\x27s one myth about hypnosis you believed?", "Let\x27s bust some myths together. What misconception did you have?")
  , ("How do you track your progress?", "Journals? Apps? Dreams? How do you know hypnosis is working for you?")
  , ("What\x27s your pre-hypnosis ritual?", "Do you have a routine before sessions? Share your setup!")
  , ("Hypnosis fails - let\x27s talk about them", "Not every session works. What hasn\x27t worked for you and why?")
  , ("Partner reactions to hypnosis?", "How did your friends/family react when you started hypnosis?") ]

/-- The local `features` list of `(name, description)` pairs inside the
`feature_highlight` branch of `generate_daily_post`, in source order. -/
def features : List (String × String) :=
  [ ("AI-Powered Personalization", "Every session is customized to your specific needs using advanced AI. No generic scripts.")
  , ("Voice Selection", "Choose from dozens of voices across multiple languages. Find the voice that resonates with you.")
  , ("Progress Tracking", "Track your hypnosis journey with detailed stats and insights.") ]

/-- Fuel-indexed worker for `pyFormat`: replaces every occurrence of `pat`
in the character list by `repl`, scanning left to right.  The fuel is the
length of the input, enough because each step consumes at least one
character (`pat` is nonempty at every call site). -/
def formatAux (pat repl : List Char) : Nat → List Char → List Char
  | _, [] => []
  | 0, s => s
  | fuel + 1, c :: cs =>
    if pat.isPrefixOf (c :: cs) then
      repl ++ formatAux pat repl fuel ((c :: cs).drop pat.length)
    else
      c :: formatAux pat repl fuel cs

/-- Model of a single named-placeholder substitution of Python
`template.format(key=value)`: every occurrence of the token
`\x7bkey\x7d` in `s` is replaced by `value`.  The source templates use no
`\x7b\x7b` escapes, indices or format specs, and multi-key `format` calls
are modelled by chaining `pyFormat` (equivalent to the simultaneous
substitution because no replacement value contains a brace). -/
def pyFormat (s key value : String) : String :=
  let pat := "\x7b" ++ key ++ "\x7d"
  String.mk (formatAux pat.data value.data s.data.length s.data)

/-- Model of `generate_daily_post`.  The four `random.choice` draws of the
source (template, tip, `(question, context)` pair, `(name, description)`
pair) are passed as explicit indices; each branch mirrors the
corresponding `if template['type'] == ...` branch of the source. -/
def generate_daily_post (templateChoice : Fin DAILY_CONTENT_TEMPLATES.length)
    (tipChoice : Fin TIPS.length) (questionChoice : Fin questions.length)
    (featureChoice : Fin features.length) : CommunityPost :=
  let template := DAILY_CONTENT_TEMPLATES.get templateChoice
  let (title, content) :=
    if template.type == "tip" then
      let tip := TIPS.get tipChoice
      (pyFormat template.title "tip_title" tip.title,
       pyFormat template.content "tip_content" tip.content)
    else if template.type == "success_story" then
      (pyFormat template.title "story_title" "From Insomnia to Restful Sleep",
       pyFormat template.content "story_content" "One of our users shared: \x27I hadn\x27t slept through the night in 3 years. After 2 weeks of nightly sleep hypnosis sessions, I\x27m sleeping 7 hours straight. It\x27s changed my life.\x27")
    else if template.type == "question" then
      let qc := questions.get questionChoice
      (pyFormat template.title "question" qc.1,
       pyFormat template.content "context" qc.2)
    else
      let fd := features.get featureChoice
      (pyFormat template.title "feature_name" fd.1,
       pyFormat (pyFormat template.content "feature_name" fd.1) "feature_description" fd.2)
  { title := title
  , content := content
  , post_type := template.type
  , flair := template.flair
  , pin := false }

/-- True when the string contains no brace character, i.e. no unresolved
(or partial) `\x7b...\x7d` placeholder token. -/
def noPlaceholder (s : String) : Bool :=
  s.data.all (fun c => c.toNat != 123 && c.toNat != 125)

/-- A JSON value, as produced by `json.loads` on the persisted state file
`community_manager_state.json`. -/
inductive JVal where
  | str : String → JVal
  | num : Int → JVal
  | bool : Bool → JVal
  | null : JVal
  | arr : List JVal → JVal
  | obj : List (String × JVal) → JVal

/-- Lookup in a JSON object represented as an association list
(Python `dict` access / `dict.get`). -/
def lookupKV : List (String × JVal) → String → Option JVal
  | [], _ => none
  | (k', v) :: rest, k => if k' == k then some v else lookupKV rest k

/-- Key assignment in a JSON object represented as an association list
(Python `d[k] = v`): replaces the value in place when the key is present,
appends otherwise. -/
def insertKV : List (String × JVal) → String → JVal → List (String × JVal)
  | [], k, v => [(k, v)]
  | (k', v') :: rest, k, v =>
    if k' == k then (k', v) :: rest else (k', v') :: insertKV rest k v

/-- The empty state that `load_state` falls back to (`return \x7b\x7d`). -/
def emptyState : JVal := JVal.obj []

/-- Model of `load_state`: the file content is `none` when the state file
does not exist; `parse` models `json.loads`, returning `none` when parsing
raises.  In both failure cases the empty state is returned. -/
def load_state (parse : String → Option JVal) (file : Option String) : JVal :=
  match file with
  | none => emptyState
  | some s =>
    match parse s with
    | some v => v
    | none => emptyState

/-- One comment of a post's comment listing in `reply_to_comments`: its
author name and whether a `comment-replies` element is already present. -/
structure CommentInfo where
  author : String
  hasReplies : Bool
deriving DecidableEq

/-- The skip tests of the inner loop of `reply_to_comments`: a comment is
replied to only when its author is not the bot account
(`REDDIT_USERNAME`) and it does not already have a reply thread. -/
def eligibleComment (user : String) (c : CommentInfo) : Bool :=
  !(c.author == user) && !c.hasReplies

/-- Inner loop of `reply_to_comments` over the comments of one post:
collects the comments replied to, in encounter order, breaking once
`replies_made >= max_replies` right after a reply is made. -/
def replyCommentsLoop (user : String) (maxReplies : Nat)
    (made : List CommentInfo) : List CommentInfo → List CommentInfo
  | [] => made
  | c :: cs =>
    if eligibleComment user c then
      if maxReplies ≤ made.length + 1 then made ++ [c]
      else replyCommentsLoop user maxReplies (made ++ [c]) cs
    else replyCommentsLoop user maxReplies made cs

/-- Outer loop of `reply_to_comments` over the post listing: breaks before
a post when `replies_made >= max_replies` already holds. -/
def replyPostsLoop (user : String) (maxReplies : Nat)
    (made : List CommentInfo) : List (List CommentInfo) → List CommentInfo
  | [] => made
  | p :: ps =>
    if maxReplies ≤ made.length then made
    else replyPostsLoop user maxReplies (replyCommentsLoop user maxReplies made p) ps

/-- The default value of the `max_replies` parameter in the signature
`def reply_to_comments(self, max_replies: int = 5)`. -/
def reply_to_comments_default : Nat := 5

/-- The `max_replies` argument the daily routine passes at its only call
site, `self.reply_to_comments(max_replies=3)`. -/
def routine_max_replies : Nat := 3

/-- Model of `reply_to_comments`: returns the list of comments replied to,
in encounter order.  In dry-run mode the method returns before any
navigation.  Otherwise it scans the first 10 posts of the newest listing
(`post_elements[:10]`), replying to eligible comments until the bound is
reached. -/
def reply_to_comments (dryRun : Bool) (user : String) (maxReplies : Nat)
    (posts : List (List CommentInfo)) : List CommentInfo :=
  if dryRun then [] else replyPostsLoop user maxReplies [] (posts.take 10)

/-- The eligible candidates of a listing, in encounter order: the
concatenation, over the at-most-10-post window, of each post's eligible
comments. -/
def eligibleStream (user : String) (posts : List (List CommentInfo)) : List CommentInfo :=
  ((posts.take 10).map (fun p => p.filter (eligibleComment user))).flatten

/-- The weekly-thread condition on source line 550:
`weekly['day'] == today_name and datetime.now().hour < 12`. -/
def weeklyEligible (weekly : WeeklyThreadSpec) (todayName : String) (hour : Nat) : Bool :=
  weekly.day == todayName && decide (hour < 12)

/-- Accumulated effects of the posting steps: the index of the next
non-dry-run submission attempt (feeding the `postOutcome` oracle), the
posts for which a real browser submission was attempted, and the posts
only logged in dry-run mode. -/
structure PostingState where
  callIdx : Nat
  submitted : List CommunityPost
  loggedPosts : List CommunityPost
deriving DecidableEq

/-- Model of `create_post`: in dry-run mode the post is logged and the
call returns `True` with no driver interaction; otherwise a submission is
attempted and its success is the externally determined outcome of this
attempt. -/
def create_post (dryRun : Bool) (outcome : Nat → Bool) (post : CommunityPost)
    (ps : PostingState) : Bool × PostingState :=
  if dryRun then
    (true, { ps with loggedPosts := ps.loggedPosts ++ [post] })
  else
    (outcome ps.callIdx,
     { ps with callIdx := ps.callIdx + 1, submitted := ps.submitted ++ [post] })

/-- The externally determined inputs of one `run_daily_routine`
invocation: the current date, weekday name, hour and timestamp, the
dry-run flag, the login outcome, the per-attempt submission outcomes, the
bot account name, the comment listing, and the four `random.choice` draws
of `generate_daily_post`. -/
structure RoutineEnv where
  today : String
  todayName : String
  hour : Nat
  nowIso : String
  dryRun : Bool
  loginOk : Bool
  postOutcome : Nat → Bool
  redditUsername : String
  replyPosts : List (List CommentInfo)
  templateChoice : Fin DAILY_CONTENT_TEMPLATES.length
  tipChoice : Fin TIPS.length
  questionChoice : Fin questions.length
  featureChoice : Fin features.length

/-- Observable outcome of one `run_daily_routine` invocation.
`savedState` is `some st` exactly when `save_state(state)` is reached,
with `st` the dict written to the state file. -/
structure RoutineResult where
  browserOpened : Bool
  loginAttempted : Bool
  submitted : List CommunityPost
  loggedPosts : List CommunityPost
  replies : List CommentInfo
  postsMade : Nat
  savedState : Option (List (String × JVal))

/-- One iteration of the weekly-thread loop of `run_daily_routine`: when
the spec is eligible today, build the `CommunityPost` and attempt it,
counting `posts_made` on success. -/
def weeklyStep (env : RoutineEnv) (acc : Nat × PostingState)
    (weekly : WeeklyThreadSpec) : Nat × PostingState :=
  if weeklyEligible weekly env.todayName env.hour then
    let post : CommunityPost :=
      { title := weekly.title, content := weekly.content, post_type := "weekly"
      , flair := weekly.flair, pin := weekly.pin }
    let r := create_post env.dryRun env.postOutcome post acc.2
    (if r.1 then acc.1 + 1 else acc.1, r.2)
  else acc

/-- The `# Track weekly threads` loop of `run_daily_routine`: for each
catalog spec whose day equals today's weekday name, when `posts_made > 0`,
the current timestamp is stored under `weekly_threads[day]`.  Returns
`none` when that assignment would raise a `TypeError` in Python because
the stored `weekly_threads` value is not an object. -/
def trackWeekly (todayName nowIso : String) (postsMade : Nat) (wt : JVal) : Option JVal :=
  WEEKLY_THREADS.foldl
    (fun acc weekly =>
      acc.bind (fun v =>
        if weekly.day == todayName && decide (0 < postsMade) then
          match v with
          | JVal.obj kvs => some (JVal.obj (insertKV kvs weekly.day (JVal.str nowIso)))
          | _ => none
        else some v))
    (some wt)

/-- The duplicate-run test `state.get('last_run') == today`: true exactly
when the loaded state holds the string `today` under `last_run` (a JSON
value of any other shape compares unequal to a Python string). -/
def lastRunIsToday (st0 : List (String × JVal)) (today : String) : Bool :=
  match lookupKV st0 "last_run" with
  | some (JVal.str s) => s == today
  | _ => false

/-- Result of the `Already ran today` early return: nothing happened, no
browser, nothing saved. -/
def routineSkipped : RoutineResult :=
  { browserOpened := false, loginAttempted := false, submitted := []
  , loggedPosts := [], replies := [], postsMade := 0, savedState := none }

/-- Result of the `Login failed` early return: the browser was set up and
login attempted, but no post, reply or state write happened. -/
def routineLoginFailed : RoutineResult :=
  { browserOpened := true, loginAttempted := true, submitted := []
  , loggedPosts := [], replies := [], postsMade := 0, savedState := none }

/-- The value `state.get('weekly_threads', \x7b\x7d)` as read from the
loaded state (the keys written before that line, `last_run` and
`posts_made`, are distinct from `weekly_threads`). -/
def loadedWeeklyThreads (st0 : List (String × JVal)) : JVal :=
  match lookupKV st0 "weekly_threads" with
  | some v => v
  | none => JVal.obj []

/-- The body of `run_daily_routine` after a successful login: the
weekly-thread loop, the daily post (when no post was made yet or the hour
is ≥ 14), the comment replies with `max_replies=3`, and the state update
and save. -/
def routineMain (env : RoutineEnv) (st0 : List (String × JVal)) : RoutineResult :=
  let ps0 : PostingState := { callIdx := 0, submitted := [], loggedPosts := [] }
  let weeklyRes := WEEKLY_THREADS.foldl (weeklyStep env) (0, ps0)
  let dailyRes :=
    if weeklyRes.1 == 0 || decide (14 ≤ env.hour) then
      let daily := generate_daily_post env.templateChoice env.tipChoice
        env.questionChoice env.featureChoice
      let r := create_post env.dryRun env.postOutcome daily weeklyRes.2
      (if r.1 then weeklyRes.1 + 1 else weeklyRes.1, r.2)
    else weeklyRes
  let replies := reply_to_comments env.dryRun env.redditUsername routine_max_replies env.replyPosts
  let st1 := insertKV st0 "last_run" (JVal.str env.today)
  let st2 := insertKV st1 "posts_made" (JVal.num (Int.ofNat dailyRes.1))
  let wt0 :=
    match lookupKV st2 "weekly_threads" with
    | some v => v
    | none => JVal.obj []
  let saved := (trackWeekly env.todayName env.nowIso dailyRes.1 wt0).map
    (fun wt => insertKV st2 "weekly_threads" wt)
  { browserOpened := true, loginAttempted := true
  , submitted := dailyRes.2.submitted, loggedPosts := dailyRes.2.loggedPosts
  , replies := replies, postsMade := dailyRes.1, savedState := saved }

/-- Model of `run_daily_routine`, from the loaded state `st0` and the
environment.  Mirrors the source: the duplicate-run check (skip when
`state.get('last_run') == today` and not dry-run), browser setup, login
(abort on failure without saving), then the main body. -/
def run_daily_routine (env : RoutineEnv) (st0 : List (String × JVal)) : RoutineResult :=
  if lastRunIsToday st0 env.today && !env.dryRun then routineSkipped
  else if !env.loginOk then routineLoginFailed
  else routineMain env st0

/-- A concrete environment for evaluating the routine: a Monday at 09:00
with dry-run enabled, login succeeding, an empty comment listing and the
first catalog choices everywhere. -/
def dryRunEnv : RoutineEnv :=
  { today := "2025-01-06", todayName := "monday", hour := 9
  , nowIso := "2025-01-06T09:00:00", dryRun := true, loginOk := true
  , postOutcome := fun _ => true, redditUsername := "hypnothera_bot"
  , replyPosts := []
  , templateChoice := ⟨0, by decide⟩, tipChoice := ⟨0, by decide⟩
  , questionChoice := ⟨0, by decide⟩, featureChoice := ⟨0, by decide⟩ }

/-- A concrete non-dry-run environment: a Monday at 09:00 where the first
submission attempt (the Monday weekly thread) fails and every later
attempt (here, only the daily post) succeeds. -/
def failedWeeklyEnv : RoutineEnv :=
  { dryRunEnv with dryRun := false, postOutcome := fun n => n != 0 }

/-- A concrete non-dry-run environment in which the login attempt fails. -/
def loginFailEnv : RoutineEnv := { failedWeeklyEnv with loginOk := false }

/-!  Lemmas about the association-list model of JSON objects. -/

/-- Looking up the key just assigned returns the assigned value. -/
theorem lookupKV_insertKV_self (l : List (String × JVal)) (k : String) (v : JVal) :
    lookupKV (insertKV l k v) k = some v := by
  induction l with
  | nil => simp [insertKV, lookupKV]
  | cons a rest ih =>
    obtain ⟨k', v'⟩ := a
    by_cases h : k' == k
    · simp [insertKV, lookupKV, h]
    · simp [insertKV, lookupKV, h, ih]

/-- Assigning one key leaves the lookup of every other key unchanged. -/
theorem lookupKV_insertKV_ne (l : List (String × JVal)) (k k' : String) (v : JVal)
    (h : k ≠ k') : lookupKV (insertKV l k' v) k = lookupKV l k := by
  have hne : (k' == k) = false := beq_eq_false_iff_ne.mpr (Ne.symm h)
  induction l with
  | nil => simp [insertKV, lookupKV, hne]
  | cons a rest ih =>
    obtain ⟨a1, a2⟩ := a
    by_cases ha : a1 == k'
    · have he : a1 = k' := eq_of_beq ha
      subst he
      simp [insertKV, lookupKV, ha, hne]
    · by_cases hk : a1 == k
      · simp [insertKV, lookupKV, ha, hk]
      · simp [insertKV, lookupKV, ha, hk, ih]

/-!  Characterization of the reply loops of `reply_to_comments`. -/

/-- The inner comment loop, entered with fewer replies made than the
bound, replies to the post's eligible comments in encounter order until
the bound is reached. -/
theorem replyCommentsLoop_eq (user : String) (maxR : Nat) (cs : List CommentInfo) :
    ∀ made : List CommentInfo, made.length < maxR →
      replyCommentsLoop user maxR made cs =
        made ++ (cs.filter (eligibleComment user)).take (maxR - made.length) := by
  induction cs with
  | nil => intro made h; simp [replyCommentsLoop]
  | cons c cs ih =>
    intro made h
    by_cases he : eligibleComment user c
    · by_cases hb : maxR ≤ made.length + 1
      · have h1 : maxR - made.length = 1 := by omega
        simp [replyCommentsLoop, he, hb, h1, List.filter_cons, List.take_succ_cons]
      · have hlt : (made ++ [c]).length < maxR := by simp; omega
        have h1 : maxR - made.length = (maxR - (made ++ [c]).length) + 1 := by simp; omega
        rw [replyCommentsLoop, if_pos he, if_neg hb, ih (made ++ [c]) hlt]
        simp [List.filter_cons, he, h1, List.take_succ_cons]
    · simp only [replyCommentsLoop, he, Bool.false_eq_true, if_false]
      rw [ih made h]
      simp [List.filter_cons, he]

/-- The outer post loop replies to the eligible comments of the window in
encounter order until the bound is reached. -/
theorem replyPostsLoop_eq (user : String) (maxR : Nat) (ps : List (List CommentInfo)) :
    ∀ made : List CommentInfo, made.length ≤ maxR →
      replyPostsLoop user maxR made ps =
        made ++ ((ps.map (fun p => p.filter (eligibleComment user))).flatten).take
          (maxR - made.length) := by
  induction ps with
  | nil => intro made h; simp [replyPostsLoop]
  | cons p ps ih =>
    intro made h
    by_cases hb : maxR ≤ made.length
    · have h0 : maxR - made.length = 0 := by omega
      simp [replyPostsLoop, hb, h0]
    · have hlt : made.length < maxR := by omega
      rw [replyPostsLoop, if_neg hb, replyCommentsLoop_eq user maxR p made hlt]
      have hlen : (made ++ (p.filter (eligibleComment user)).take (maxR - made.length)).length ≤ maxR := by
        simp [List.length_take]; omega
      rw [ih _ hlen]
      have hlen2 : (made ++ (p.filter (eligibleComment user)).take (maxR - made.length)).length
          = made.length + min (maxR - made.length) (p.filter (eligibleComment user)).length := by
        simp [List.length_take]
      rw [hlen2]
      simp only [List.map_cons, List.flatten_cons, List.take_append_eq_append_take,
        List.append_assoc, List.length_take]
      congr 3
      omega

/-!  Lemmas about the weekly-thread tracking loop and the routine body. -/

/-- On a well-formed (object-valued) `weekly_threads` record, the tracking
loop always succeeds, and it assigns the current timestamp under today's
weekday name exactly when that name is one of the three catalog days and
`posts_made > 0`. -/
theorem trackWeekly_obj_eq (tn now : String) (p : Nat) (kvs : List (String × JVal)) :
    trackWeekly tn now p (JVal.obj kvs) =
      some (JVal.obj (if (tn = "monday" ∨ tn = "wednesday" ∨ tn = "friday") ∧ 0 < p
        then insertKV kvs tn (JVal.str now) else kvs)) := by
  by_cases hp : 0 < p
  · by_cases h1 : tn = "monday"
    · subst h1; simp [trackWeekly, WEEKLY_THREADS, hp]
    · by_cases h2 : tn = "wednesday"
      · subst h2; simp [trackWeekly, WEEKLY_THREADS, hp]
      · by_cases h3 : tn = "friday"
        · subst h3; simp [trackWeekly, WEEKLY_THREADS, hp]
        · have n1 : ¬("monday" = tn) := fun he => h1 he.symm
          have n2 : ¬("wednesday" = tn) := fun he => h2 he.symm
          have n3 : ¬("friday" = tn) := fun he => h3 he.symm
          simp [trackWeekly, WEEKLY_THREADS, n1, n2, n3, h1, h2, h3]
  · have hd : decide (0 < p) = false := by simp [hp]
    simp [trackWeekly, WEEKLY_THREADS, hd, hp]

/-- In dry-run mode the weekly loop never performs a real submission. -/
theorem weeklyFold_dry_submitted (env : RoutineEnv) (h : env.dryRun = true) :
    ∀ (l : List WeeklyThreadSpec) (acc : Nat × PostingState),
      (l.foldl (weeklyStep env) acc).2.submitted = acc.2.submitted := by
  intro l
  induction l with
  | nil => intro acc; rfl
  | cons w l ih =>
    intro acc
    rw [List.foldl_cons, ih]
    by_cases he : weeklyEligible w env.todayName env.hour
    · simp [weeklyStep, he, create_post, h]
    · simp [weeklyStep, he]

/-- Shape of the state write of the routine body: the loaded state with
`last_run` and `posts_made` reassigned and `weekly_threads` set to the
result of the tracking loop over the loaded `weekly_threads` value. -/
theorem routineMain_savedState (env : RoutineEnv) (st0 : List (String × JVal)) :
    (routineMain env st0).savedState =
      (trackWeekly env.todayName env.nowIso (routineMain env st0).postsMade
          (loadedWeeklyThreads st0)).map
        (fun wt => insertKV (insertKV (insertKV st0 "last_run" (JVal.str env.today))
          "posts_made" (JVal.num (Int.ofNat (routineMain env st0).postsMade)))
          "weekly_threads" wt) := by
  simp only [routineMain]
  rw [lookupKV_insertKV_ne _ "weekly_threads" "posts_made" _ (by decide),
    lookupKV_insertKV_ne _ "weekly_threads" "last_run" _ (by decide)]
  rfl

/-- In dry-run mode the routine body performs no real submission. -/
theorem routineMain_submitted_dry (env : RoutineEnv) (st0 : List (String × JVal))
    (h : env.dryRun = true) : (routineMain env st0).submitted = [] := by
  simp only [routineMain]
  split
  · simp [create_post, h, weeklyFold_dry_submitted env h]
  · rw [weeklyFold_dry_submitted env h]

/-- Every catalog spec's day is one of the three catalog weekday names. -/
theorem mem_WEEKLY_THREADS_day (w : WeeklyThreadSpec) (h : w ∈ WEEKLY_THREADS) :
    w.day = "monday" ∨ w.day = "wednesday" ∨ w.day = "friday" := by
  simp only [WEEKLY_THREADS, List.mem_cons, List.not_mem_nil, or_false] at h
  rcases h with rfl | rfl | rfl <;> simp

set_option maxRecDepth 10000 in
/-- Each of the three catalog weekday names is the day of some spec. -/
theorem day_mem_WEEKLY_THREADS (d : String)
    (h : d = "monday" ∨ d = "wednesday" ∨ d = "friday") :
    ∃ w ∈ WEEKLY_THREADS, w.day = d := by
  rcases h with rfl | rfl | rfl <;> decide

/-!  Claim theorems. -/

set_option maxRecDepth 100000 in
/-- C1 counterexample: with dry-run enabled (environment `dryRunEnv`, a
Monday at 09:00, empty initial state), the routine still opens a browser
session, still attempts login, and still writes the RunState file —
contradicting the claim that dry-run performs no state mutation and opens
no automation session. -/
theorem dry_run_still_opens_browser_and_saves_state_cex :
    dryRunEnv.dryRun = true ∧
    (run_daily_routine dryRunEnv []).browserOpened = true ∧
    (run_daily_routine dryRunEnv []).loginAttempted = true ∧
    (run_daily_routine dryRunEnv []).savedState.isSome = true :=
  ⟨rfl, rfl, rfl, rfl⟩

/-- C1 (amended): when the dry-run flag is enabled, for every initial
state and date, no post submission and no comment reply is performed
against the community (each such action is only logged and treated as
succeeding); however a browser session is still opened and login still
attempted, and whenever login succeeds and the loaded state's
`weekly_threads` entry is absent or a JSON object, the RunState file is
still written (a non-object `weekly_threads` value instead raises a
`TypeError` in the tracking loop before the save — still after the
session was opened). -/
theorem dry_run_suppresses_submissions_only (env : RoutineEnv)
    (st0 : List (String × JVal)) (hdry : env.dryRun = true) :
    (run_daily_routine env st0).submitted = [] ∧
    (run_daily_routine env st0).replies = [] ∧
    (run_daily_routine env st0).browserOpened = true ∧
    (run_daily_routine env st0).loginAttempted = true ∧
    (env.loginOk = true → ∀ kvs0 : List (String × JVal),
      loadedWeeklyThreads st0 = JVal.obj kvs0 →
      (run_daily_routine env st0).savedState.isSome = true) := by
  have hc : (lastRunIsToday st0 env.today && !env.dryRun) = false := by simp [hdry]
  by_cases hlog : env.loginOk
  · have hrun : run_daily_routine env st0 = routineMain env st0 := by
      simp [run_daily_routine, hc, hlog]
    rw [hrun]
    refine ⟨routineMain_submitted_dry env st0 hdry, ?_, rfl, rfl, ?_⟩
    · simp [routineMain, reply_to_comments, hdry]
    · intro _ kvs0 hload
      rw [routineMain_savedState]
      rw [hload, trackWeekly_obj_eq]
      simp
  · have hrun : run_daily_routine env st0 = routineLoginFailed := by
      simp [run_daily_routine, hc, hlog]
    rw [hrun]
    refine ⟨rfl, rfl, rfl, rfl, ?_⟩
    intro hk
    simp [hlog] at hk

/-- C1 witness: the amended theorem evaluated at the concrete dry-run
environment `dryRunEnv` with an empty initial state. -/
theorem dry_run_suppresses_submissions_only_witness :
    (run_daily_routine dryRunEnv []).submitted = [] ∧
    (run_daily_routine dryRunEnv []).replies = [] ∧
    (run_daily_routine dryRunEnv []).browserOpened = true ∧
    (run_daily_routine dryRunEnv []).loginAttempted = true ∧
    (run_daily_routine dryRunEnv []).savedState.isSome = true := by
  have h := dry_run_suppresses_submissions_only dryRunEnv [] rfl
  exact ⟨h.1, h.2.1, h.2.2.1, h.2.2.2.1, h.2.2.2.2 rfl [] rfl⟩

set_option maxRecDepth 1000000 in
/-- C2 counterexample: on a Monday at 09:00 (`failedWeeklyEnv`) the Monday
weekly-thread submission fails (the first submission attempt has outcome
`false`) while the daily post succeeds, yet the persisted state records a
timestamp under `weekly_threads["monday"]` — contradicting the claim that
a timestamp is recorded only for matching specs whose own post
succeeded. -/
theorem weekly_timestamp_recorded_despite_failed_weekly_post_cex :
    failedWeeklyEnv.postOutcome 0 = false ∧
    (run_daily_routine failedWeeklyEnv []).submitted.map CommunityPost.post_type
      = ["weekly", "tip"] ∧
    (run_daily_routine failedWeeklyEnv []).postsMade = 1 ∧
    (run_daily_routine failedWeeklyEnv []).savedState.bind
        (fun st => lookupKV st "weekly_threads")
      = some (JVal.obj [("monday", JVal.str "2025-01-06T09:00:00")]) :=
  ⟨rfl, rfl, rfl, rfl⟩

/-- C2 (amended): at the end of a routine run that persists state (from a
well-formed `weekly_threads` record), a timestamp is recorded under
`weekly_threads[day]` exactly for those weekly specs whose `day_of_week`
matched today AND for which at least one post of any kind (weekly or
daily) succeeded this run (`posts_made > 0`); all other day keys keep
their previous value.  In particular a matching spec receives a timestamp
even when its own post failed, provided some other post succeeded. -/
theorem weekly_threads_timestamp_iff_day_matched_and_any_post_succeeded
    (env : RoutineEnv) (st0 st' kvs0 : List (String × JVal))
    (hw : loadedWeeklyThreads st0 = JVal.obj kvs0)
    (hs : (run_daily_routine env st0).savedState = some st') :
    ∃ kvs', lookupKV st' "weekly_threads" = some (JVal.obj kvs') ∧
      ∀ d : String,
        lookupKV kvs' d =
          if (∃ w ∈ WEEKLY_THREADS, w.day = d) ∧ d = env.todayName ∧
              0 < (run_daily_routine env st0).postsMade
          then some (JVal.str env.nowIso)
          else lookupKV kvs0 d := by
  by_cases hc1 : (lastRunIsToday st0 env.today && !env.dryRun) = true
  · have hrun : run_daily_routine env st0 = routineSkipped := by
      simp [run_daily_routine, hc1]
    rw [hrun] at hs
    simp [routineSkipped] at hs
  · by_cases hc2 : env.loginOk
    · have hrun : run_daily_routine env st0 = routineMain env st0 := by
        rw [Bool.not_eq_true] at hc1
        simp [run_daily_routine, hc1, hc2]
      rw [hrun] at hs ⊢
      rw [routineMain_savedState, hw, trackWeekly_obj_eq] at hs
      rw [Option.map_some', Option.some_inj] at hs
      subst hs
      refine ⟨_, lookupKV_insertKV_self _ _ _, ?_⟩
      intro d
      by_cases hP : 0 < (routineMain env st0).postsMade
      · by_cases htn : env.todayName = "monday" ∨ env.todayName = "wednesday" ∨
            env.todayName = "friday"
        · rw [if_pos ⟨htn, hP⟩]
          by_cases hd : d = env.todayName
          · subst hd
            rw [if_pos ⟨day_mem_WEEKLY_THREADS env.todayName htn, rfl, hP⟩]
            rw [lookupKV_insertKV_self]
          · rw [if_neg (fun hcond => hd hcond.2.1)]
            rw [lookupKV_insertKV_ne _ _ _ _ hd]
        · rw [if_neg (fun hcond => htn hcond.1)]
          rw [if_neg ?_]
          rintro ⟨⟨w, hwmem, hwday⟩, hdtn, _⟩
          exact htn (by rw [← hdtn, ← hwday]; exact mem_WEEKLY_THREADS_day w hwmem)
      · rw [if_neg (fun hcond => hP hcond.2)]
        rw [if_neg (fun hcond => hP hcond.2.2)]
    · have hrun : run_daily_routine env st0 = routineLoginFailed := by
        rw [Bool.not_eq_true] at hc1
        simp [run_daily_routine, hc1, hc2]
      rw [hrun] at hs
      simp [routineLoginFailed] at hs

set_option maxRecDepth 1000000 in
/-- C2 witness: the amended theorem evaluated at `failedWeeklyEnv` with an
empty initial state, whose run persists the concrete state shown. -/
theorem weekly_threads_timestamp_iff_day_matched_and_any_post_succeeded_witness :
    ∃ kvs', lookupKV [("last_run", JVal.str "2025-01-06"), ("posts_made", JVal.num 1),
        ("weekly_threads", JVal.obj [("monday", JVal.str "2025-01-06T09:00:00")])]
        "weekly_threads" = some (JVal.obj kvs') ∧
      ∀ d : String,
        lookupKV kvs' d =
          if (∃ w ∈ WEEKLY_THREADS, w.day = d) ∧ d = failedWeeklyEnv.todayName ∧
              0 < (run_daily_routine failedWeeklyEnv []).postsMade
          then some (JVal.str failedWeeklyEnv.nowIso)
          else lookupKV [] d :=
  weekly_threads_timestamp_iff_day_matched_and_any_post_succeeded failedWeeklyEnv []
    [("last_run", JVal.str "2025-01-06"), ("posts_made", JVal.num 1),
      ("weekly_threads", JVal.obj [("monday", JVal.str "2025-01-06T09:00:00")])]
    [] rfl (by rfl)

/-- C3 counterexample: the default of the `max_replies` parameter of
`reply_to_comments` is 5, not 3 as claimed; the daily routine passes the
bound 3 explicitly at its call site. -/
theorem reply_bound_default_is_five_not_three_cex :
    reply_to_comments_default ≠ 3 ∧ reply_to_comments_default = 5 ∧
    routine_max_replies = 3 := by decide

/-- C3 (amended): the comment-reply step replies exactly to the first
`min(K, number of eligible candidates)` eligible comments in encounter
order, where the candidate window is the at-most-10 most-recent posts of
the newest listing and a comment is eligible iff it is not authored by
the bot account and bears no reply; `K` is the `max_replies` parameter,
whose signature default is 5 and which the daily routine passes as 3. -/
theorem reply_attempts_eq_min_bound_eligible (user : String) (maxR : Nat)
    (posts : List (List CommentInfo)) :
    reply_to_comments false user maxR posts = (eligibleStream user posts).take maxR ∧
    (reply_to_comments false user maxR posts).length
      = min maxR (eligibleStream user posts).length ∧
    reply_to_comments_default = 5 ∧ routine_max_replies = 3 := by
  have h := replyPostsLoop_eq user maxR (posts.take 10) [] (by simp)
  have h1 : reply_to_comments false user maxR posts = (eligibleStream user posts).take maxR := by
    simpa [reply_to_comments, eligibleStream] using h
  exact ⟨h1, by simp [h1, List.length_take], rfl, rfl⟩

/-- C4: if the persisted state holds today's date under `last_run` and the
routine runs again in non-dry-run mode, it attempts no posting and no
reply (no session is even opened) and does not write the state file. -/
theorem already_ran_today_skips_all_actions (env : RoutineEnv)
    (st0 : List (String × JVal))
    (hlr : lookupKV st0 "last_run" = some (JVal.str env.today))
    (hdry : env.dryRun = false) :
    (run_daily_routine env st0).submitted = [] ∧
    (run_daily_routine env st0).loggedPosts = [] ∧
    (run_daily_routine env st0).replies = [] ∧
    (run_daily_routine env st0).savedState = none ∧
    (run_daily_routine env st0).browserOpened = false := by
  have hc : lastRunIsToday st0 env.today = true := by simp [lastRunIsToday, hlr]
  simp [run_daily_routine, hc, hdry, routineSkipped]

/-- C4 witness: the theorem evaluated at `failedWeeklyEnv` with a state
that already records today's date. -/
theorem already_ran_today_skips_all_actions_witness :
    (run_daily_routine failedWeeklyEnv [("last_run", JVal.str "2025-01-06")]).submitted = [] ∧
    (run_daily_routine failedWeeklyEnv [("last_run", JVal.str "2025-01-06")]).loggedPosts = [] ∧
    (run_daily_routine failedWeeklyEnv [("last_run", JVal.str "2025-01-06")]).replies = [] ∧
    (run_daily_routine failedWeeklyEnv [("last_run", JVal.str "2025-01-06")]).savedState = none ∧
    (run_daily_routine failedWeeklyEnv [("last_run", JVal.str "2025-01-06")]).browserOpened = false :=
  already_ran_today_skips_all_actions failedWeeklyEnv
    [("last_run", JVal.str "2025-01-06")] rfl rfl

/-- C5: when login fails the routine aborts before any posting or reply
action and writes no state, so a later invocation on the same date is not
blocked by a stale `last_run` value. -/
theorem login_failure_aborts_without_persisting (env : RoutineEnv)
    (st0 : List (String × JVal)) (hl : env.loginOk = false) :
    (run_daily_routine env st0).submitted = [] ∧
    (run_daily_routine env st0).loggedPosts = [] ∧
    (run_daily_routine env st0).replies = [] ∧
    (run_daily_routine env st0).savedState = none := by
  by_cases hc : (lastRunIsToday st0 env.today && !env.dryRun) = true
  · simp [run_daily_routine, hc, routineSkipped]
  · rw [Bool.not_eq_true] at hc
    simp [run_daily_routine, hc, hl, routineLoginFailed]

/-- C5 witness: the theorem evaluated at the concrete failing-login
environment with an empty initial state. -/
theorem login_failure_aborts_without_persisting_witness :
    (run_daily_routine loginFailEnv []).submitted = [] ∧
    (run_daily_routine loginFailEnv []).loggedPosts = [] ∧
    (run_daily_routine loginFailEnv []).replies = [] ∧
    (run_daily_routine loginFailEnv []).savedState = none :=
  login_failure_aborts_without_persisting loginFailEnv [] rfl

set_option maxRecDepth 100000 in
/-- C6: a catalog weekly spec is eligible for posting exactly when its
`day` equals today's weekday name and the hour is before noon; on a
Monday at 09:00 exactly the first (Monday) spec of the catalog is
eligible. -/
theorem weekly_spec_eligible_iff_day_matches_before_noon :
    (∀ (i : Fin WEEKLY_THREADS.length) (todayName : String) (hour : Nat),
      weeklyEligible (WEEKLY_THREADS.get i) todayName hour = true ↔
        ((WEEKLY_THREADS.get i).day = todayName ∧ hour < 12)) ∧
    WEEKLY_THREADS.filter (fun w => weeklyEligible w "monday" 9) = WEEKLY_THREADS.take 1 ∧
    weeklyEligible (WEEKLY_THREADS.get ⟨0, by decide⟩) "monday" 9 = true := by
  refine ⟨?_, by decide, by decide⟩
  intro i n h
  simp [weeklyEligible]

set_option maxRecDepth 1000000 in
set_option maxHeartbeats 4000000 in
/-- C7: for every daily template and every catalog choice it draws from,
the generated post's title and content contain no brace character, hence
no unresolved named-placeholder token. -/
theorem generate_daily_post_no_unresolved_placeholders :
    ∀ (t : Fin DAILY_CONTENT_TEMPLATES.length) (i : Fin TIPS.length)
      (q : Fin questions.length) (f : Fin features.length),
      noPlaceholder (generate_daily_post t i q f).title = true ∧
      noPlaceholder (generate_daily_post t i q f).content = true := by decide

/-- C8: `load_state` never fails — a missing file or unparseable contents
yield the empty state. -/
theorem load_state_missing_or_unparseable_returns_empty
    (parse : String → Option JVal) (file : Option String)
    (h : file = none ∨ ∃ s, file = some s ∧ parse s = none) :
    load_state parse file = emptyState := by
  rcases h with rfl | ⟨s, rfl, hp⟩
  · rfl
  · simp [load_state, hp]

/-- C8 witness: the theorem evaluated at a parser that rejects everything
and a concrete unparseable file content. -/
theorem load_state_missing_or_unparseable_returns_empty_witness :
    load_state (fun _ => none) (some "not json") = emptyState :=
  load_state_missing_or_unparseable_returns_empty (fun _ => none) (some "not json")
    (Or.inr ⟨"not json", rfl, rfl⟩)

set_option maxRecDepth 1000000 in
set_option maxHeartbeats 4000000 in
/-- C9: every post returned by `generate_daily_post` has `pin = false`,
whatever template and catalog entry were randomly selected. -/
theorem generate_daily_post_never_pinned :
    ∀ (t : Fin DAILY_CONTENT_TEMPLATES.length) (i : Fin TIPS.length)
      (q : Fin questions.length) (f : Fin features.length),
      (generate_daily_post t i q f).pin = false := by decide

/-- C10: a routine run that persists state rewrites only the keys
`last_run`, `posts_made` and `weekly_threads`; every other key of the
loaded state is written back with its original value. -/
theorem routine_preserves_unrelated_state_keys (env : RoutineEnv)
    (st0 st' : List (String × JVal)) (k : String)
    (hs : (run_daily_routine env st0).savedState = some st')
    (h1 : k ≠ "last_run") (h2 : k ≠ "posts_made") (h3 : k ≠ "weekly_threads") :
    lookupKV st' k = lookupKV st0 k := by
  unfold run_daily_routine at hs
  split at hs
  · simp [routineSkipped] at hs
  · split at hs
    · simp [routineLoginFailed] at hs
    · rw [routineMain_savedState] at hs
      obtain ⟨wt', hwt, hins⟩ := Option.map_eq_some'.mp hs
      rw [← hins, lookupKV_insertKV_ne _ _ _ _ h3, lookupKV_insertKV_ne _ _ _ _ h2,
        lookupKV_insertKV_ne _ _ _ _ h1]

set_option maxRecDepth 1000000 in
/-- C10 witness: the theorem evaluated at `failedWeeklyEnv` with a state
holding an unrelated key `extra`, carried through the concrete saved
state. -/
theorem routine_preserves_unrelated_state_keys_witness :
    lookupKV [("extra", JVal.num 7), ("last_run", JVal.str "2025-01-06"),
      ("posts_made", JVal.num 1),
      ("weekly_threads", JVal.obj [("monday", JVal.str "2025-01-06T09:00:00")])] "extra"
      = lookupKV [("extra", JVal.num 7)] "extra" :=
  routine_preserves_unrelated_state_keys failedWeeklyEnv [("extra", JVal.num 7)]
    [("extra", JVal.num 7), ("last_run", JVal.str "2025-01-06"),
      ("posts_made", JVal.num 1),
      ("weekly_threads", JVal.obj [("monday", JVal.str "2025-01-06T09:00:00")])] "extra"
    (by rfl) (by decide) (by decide) (by decide)
